import Mathlib

/-!
Verification of the GameFAQs scraping adapter (`resources/lib/scraper.py`).

The Python source is shallowly embedded: pure helper functions become Lean
functions on `String`/`List Char`, the scraper object state becomes an
explicit `ScraperState` record, the HTTP transport becomes an oracle
`Net : NetCall → String × Nat` (body, status code), and each public
operation additionally returns the number of network fetches it issued.

Python regular expressions in the source are all of the shape
"literal (lazy gap/capture) literal ...": they are embedded as scanners
that resolve each lazy part to the first occurrence of the following
literal.  The regex engine's backtracking across a later literal on
malformed input is not modelled (it cannot change the result for the
patterns used here, whose stages fail monotonically).
-/

namespace GameFAQsScraper

/-! ### Python string primitives -/

/-- Occurrence test: does `sub` occur as a substring of `s`?
This embeds Python's `sub in s` and `s.find(sub) != -1` (both true for the
empty `sub`). -/
def containsL (sub : List Char) : List Char → Bool
  | [] => sub.isEmpty
  | c :: cs => sub.isPrefixOf (c :: cs) || containsL sub cs

/-- String-level wrapper for `containsL`. -/
def pyContains (s sub : String) : Bool :=
  containsL sub.data s.data

/-- Fuel-driven loop for `pyReplace`; the fuel is the length of the scanned
list, so it never runs out. -/
def replaceLoop (pat rep : List Char) : Nat → List Char → List Char
  | _, [] => []
  | 0, s => s
  | fuel + 1, c :: cs =>
    if pat.isPrefixOf (c :: cs) then
      rep ++ replaceLoop pat rep fuel ((c :: cs).drop pat.length)
    else
      c :: replaceLoop pat rep fuel cs

/-- Python `s.replace(pat, rep)`: replace every non-overlapping occurrence,
scanning left to right (`pat` is never empty in the source). -/
def pyReplace (s pat rep : String) : String :=
  ⟨replaceLoop pat.data rep.data s.data.length s.data⟩

/-- Python `str.isnumeric()` restricted to ASCII digits, which is all the
scraped pages contain. -/
def pyIsNumeric (s : String) : Bool :=
  !s.isEmpty && s.data.all Char.isDigit

/-- The tab/newline removal applied to every fetched page body:
`page_data.replace("\t", "").replace("\n", "")`. -/
def pyClean (s : String) : String :=
  pyReplace (pyReplace s "\t" "") "\n" ""

/-- Python `s.split(sep)[1]` for a one-character separator, totalised: the
source indexes `result[2].split('/')[1]`, which raises `IndexError` when the
href has no slash; the embedding returns `""` there (which looks up to
platform id 0, the same sentinel an unknown platform gets). -/
def pySplitSecond (sep : Char) (s : String) : String :=
  match (s.data.splitOn sep).get? 1 with
  | some l => ⟨l⟩
  | none => ""

/-! ### Scanner primitives for the source's lazy-literal regexes -/

/-- Capture up to the first occurrence of the literal `pat`
(`(.*?)pat` anchored at the head): returns the captured characters and the
remainder after `pat`, or `none` when `pat` does not occur. -/
def takeUntilLit (pat : List Char) : List Char → Option (List Char × List Char)
  | [] => none
  | c :: cs =>
    if pat.isPrefixOf (c :: cs) then
      some ([], (c :: cs).drop pat.length)
    else
      match takeUntilLit pat cs with
      | some (cap, rest) => some (c :: cap, rest)
      | none => none

/-- Skip to just after the first occurrence of the literal `pat`
(`.*?pat` anchored at the head). -/
def dropToLit (pat : List Char) (s : List Char) : Option (List Char) :=
  (takeUntilLit pat s).map (·.2)

/-- One lazy capture between two literals: `pre(.*?)post`, searched anywhere
in `s` (first occurrence of `pre`, then shortest capture). -/
def extractLazyCapture (pre post : List Char) (s : List Char) : Option (List Char) :=
  match dropToLit pre s with
  | none => none
  | some r => (takeUntilLit post r).map (·.1)

/-- Lazy capture after skipping one more lazy gap:
`pre .*? skip (.*?) post`, as in `<a href=".*?">(.*?)</a>` style patterns. -/
def extractSkipCapture (pre skip post : List Char) (s : List Char) : Option (List Char) :=
  match dropToLit pre s with
  | none => none
  | some r =>
    match dropToLit skip r with
    | none => none
    | some r2 => (takeUntilLit post r2).map (·.1)

/-- The source regex `\d+\-(\d+)` under `re.search`: find the first digit run
that is immediately followed by a dash and at least one digit, and return the
(greedy) digit run after the dash.  Fuel is the length of the scanned list. -/
def rangeSearch : Nat → List Char → Option (List Char)
  | _, [] => none
  | 0, _ => none
  | fuel + 1, c :: cs =>
    if c.isDigit then
      match (c :: cs).dropWhile Char.isDigit with
      | '-' :: rest2 =>
        let ms := rest2.takeWhile Char.isDigit
        if ms.isEmpty then rangeSearch fuel rest2 else some ms
      | rest1 => rangeSearch fuel rest1
    else
      rangeSearch fuel cs

/-- String-level wrapper for `rangeSearch` (`self.regex_num_of_player`). -/
def rangeSearchStr (s : String) : Option String :=
  (rangeSearch s.data.length s.data).map (fun l => ⟨l⟩)

/-- The source's inner `re.search('\d\d\d\d', date_str)`: the first window of
four consecutive decimal digits. -/
def fourDigitSearch : List Char → Option (List Char)
  | a :: b :: c :: d :: rest =>
    if a.isDigit && b.isDigit && c.isDigit && d.isDigit then
      some [a, b, c, d]
    else
      fourDigitSearch (b :: c :: d :: rest)
  | _ => none

/-! ### Host (AKL) constants used by the adapter

These identifiers live in the external `akl` packages, outside this
repository; their values are opaque tokens to the adapter. -/

/-- Modelled from the spec: the host's asset-kind identifier for title
screens (`constants.ASSET_TITLE_ID`). -/
def ASSET_TITLE_ID : String := "title"

/-- Modelled from the spec: the host's asset-kind identifier for snapshots
(`constants.ASSET_SNAP_ID`). -/
def ASSET_SNAP_ID : String := "snap"

/-- Modelled from the spec: the host's asset-kind identifier for box fronts
(`constants.ASSET_BOXFRONT_ID`). -/
def ASSET_BOXFRONT_ID : String := "boxfront"

/-- Modelled from the spec: the host's asset-kind identifier for box backs
(`constants.ASSET_BOXBACK_ID`). -/
def ASSET_BOXBACK_ID : String := "boxback"

/-- Modelled from the spec: the default player-count sentinel
(`constants.DEFAULT_META_NPLAYERS`), an empty value in the host. -/
def DEFAULT_META_NPLAYERS : String := ""

/-- Modelled from the spec: canonical ESRB category constants of the host
(`constants.ESRB_*`); only their distinctness matters here. -/
def ESRB_PENDING : String := "RP (Rating Pending)"

/-- Modelled from the spec: `constants.ESRB_EVERYONE`. -/
def ESRB_EVERYONE : String := "E (Everyone)"

/-- Modelled from the spec: `constants.ESRB_EARLY`. -/
def ESRB_EARLY : String := "EC (Early Childhood)"

/-- Modelled from the spec: `constants.ESRB_EVERYONE_10`. -/
def ESRB_EVERYONE_10 : String := "E10+ (Everyone 10+)"

/-- Modelled from the spec: `constants.ESRB_TEEN`. -/
def ESRB_TEEN : String := "T (Teen)"

/-- Modelled from the spec: `constants.ESRB_ADULTS_ONLY`. -/
def ESRB_ADULTS_ONLY : String := "AO (Adults Only)"

/-- Modelled from the spec: `constants.ESRB_MATURE`. -/
def ESRB_MATURE : String := "M (Mature)"

/-- Modelled from the spec: the compact name of the host's arcade platform
(`platforms.PLATFORM_MAME_COMPACT`). -/
def PLATFORM_MAME_COMPACT : String := "arcade"

/-- Modelled from the spec: the compact name of the host's canonical
"unknown platform" (`platforms.PLATFORM_UNKNOWN_COMPACT`). -/
def PLATFORM_UNKNOWN_COMPACT : String := "unknown"

/-! ### Platform Mapper (source lines 604-700) -/

/-- `DEFAULT_PLAT_GAMEFAQS = 0`: the site code meaning "any platform". -/
def DEFAULT_PLAT_GAMEFAQS : Nat := 0

/-- The static forward table `AKL_compact_platform_GameFaqs_mapping`,
in source order (a Python dict literal with pairwise-distinct keys). -/
def AKL_compact_platform_GameFaqs_mapping : List (String × Nat) := [
  ("3do", 61),
  ("cpc", 46),
  ("a2600", 6),
  ("a5200", 20),
  ("a7800", 51),
  ("jaguar", 72),
  ("jaguarcd", 82),
  ("lynx", 58),
  ("atari-st", 38),
  ("wswan", 90),
  ("wswancolor", 95),
  ("cvision", 29),
  ("c64", 24),
  ("amiga", 39),
  ("cd32", 70),
  ("vic20", 11),
  ("fmtmarty", 55),
  ("vectrex", 34),
  ("odyssey2", 9),
  (PLATFORM_MAME_COMPACT, 2),
  ("ivision", 16),
  ("msdos", 19),
  ("msx", 40),
  ("msx2", 40),
  ("windows", 19),
  ("xbox", 98),
  ("xbox360", 111),
  ("xboxone", 121),
  ("pce", 53),
  ("pcecd", 56),
  ("pcfx", 79),
  ("sgx", 53),
  ("n3ds", 116),
  ("n64", 84),
  ("n64dd", 92),
  ("nds", 108),
  ("ndsi", 108),
  ("fds", 47),
  ("gb", 59),
  ("gba", 91),
  ("gbcolor", 57),
  ("gamecube", 99),
  ("nes", 41),
  ("snes", 63),
  ("switch", 124),
  ("vb", 83),
  ("wii", 114),
  ("wiiu", 118),
  ("32x", 74),
  ("dreamcast", 67),
  ("gamegear", 62),
  ("sms", 49),
  ("megadrive", 54),
  ("genesis", 54),
  ("megacd", 65),
  ("saturn", 76),
  ("sg1000", 43),
  ("x68k", 52),
  ("spectrum", 35),
  ("neocd", 68),
  ("ngpcolor", 89),
  ("psx", 78),
  ("ps2", 94),
  ("ps3", 113),
  ("ps4", 120),
  ("psp", 109),
  ("psvita", 117)]

/-- The inverse table `GameFaqs_AKL_compact_platform_mapping`, built exactly
as in the source by inserting `value -> key` for each forward entry in
order, so a later key sharing a code overwrites an earlier one. -/
def GameFaqs_AKL_compact_platform_mapping : Nat → Option String :=
  AKL_compact_platform_GameFaqs_mapping.foldl
    (fun acc kv => fun c => if c = kv.2 then some kv.1 else acc c)
    (fun _ => none)

/-- The argument of `convert_AKL_platform_to_GameFaqs` after the external
registry call `platforms.get_AKL_platform(platform_long_name)`: a platform
record with a compact name and an optional alias. -/
structure AKLPlatform where
  compact_name : String
  aliasof : Option String
deriving DecidableEq

/-- `convert_AKL_platform_to_GameFaqs` (source lines 609-618); the external
long-name resolution is modelled by taking the resolved platform record. -/
def convert_AKL_platform_to_GameFaqs (matching_platform : AKLPlatform) : Nat :=
  match List.lookup matching_platform.compact_name AKL_compact_platform_GameFaqs_mapping with
  | some v => v
  | none =>
    match matching_platform.aliasof with
    | some a =>
      match List.lookup a AKL_compact_platform_GameFaqs_mapping with
      | some v => v
      | none => DEFAULT_PLAT_GAMEFAQS
    | none => DEFAULT_PLAT_GAMEFAQS

/-- `convert_GameFaqs_platform_to_AKL_platform` (source lines 621-626); the
external `platforms.get_AKL_platform_by_compact` resolves a compact name to
the platform carrying that compact name, so the conversion is modelled as
returning the compact name itself (`PLATFORM_UNKNOWN_COMPACT` on a miss). -/
def convert_GameFaqs_platform_to_AKL_platform (moby_platform : Nat) : String :=
  match GameFaqs_AKL_compact_platform_mapping moby_platform with
  | some platform_compact_name => platform_compact_name
  | none => PLATFORM_UNKNOWN_COMPACT

/-! ### Claim C1: platform round trips -/

/-- C1 counterexample: the conversions are not mutually inverse over the
whole static table.  The host compact name `"msx"` is a key of the forward
mapping (code 40), but code 40 converts back to `"msx2"`, because the
inverse table is built last-wins and `"msx2"` also maps to 40. -/
theorem C1_platform_round_trip_counterexample :
    List.lookup "msx" AKL_compact_platform_GameFaqs_mapping = some 40 ∧
    convert_GameFaqs_platform_to_AKL_platform
      (convert_AKL_platform_to_GameFaqs ⟨"msx", none⟩) = "msx2" ∧
    ("msx2" : String) ≠ "msx" := by
  refine ⟨rfl, rfl, ?_⟩
  decide

/-- C1 (amended): the code round trip site code -> host platform -> site
code holds for every code in the static table, and the host round trip
name -> code -> name holds for every forward key except the five keys
(`msx`, `msdos`, `pce`, `megadrive`, `nds`) whose code is shared with a
later synonym in the table; each of those five converts back to the later
synonym instead of to itself. -/
theorem C1_platform_round_trip_amended :
    ((AKL_compact_platform_GameFaqs_mapping.map Prod.snd).all
      (fun c =>
        convert_AKL_platform_to_GameFaqs
          ⟨convert_GameFaqs_platform_to_AKL_platform c, none⟩ == c)) = true ∧
    (AKL_compact_platform_GameFaqs_mapping.all
      (fun p =>
        (convert_GameFaqs_platform_to_AKL_platform
          (convert_AKL_platform_to_GameFaqs ⟨p.1, none⟩) == p.1)
        || (["msx", "msdos", "pce", "megadrive", "nds"].contains p.1))) = true ∧
    (["msx", "msdos", "pce", "megadrive", "nds"].all
      (fun k =>
        convert_GameFaqs_platform_to_AKL_platform
          (convert_AKL_platform_to_GameFaqs ⟨k, none⟩) != k)) = true := by
  refine ⟨?_, ?_, ?_⟩ <;> rfl

/-! ### Block/alt-title classifier `_parse_asset_type` (source lines 246-258) -/

/-- `GameFAQs._parse_asset_type(header)`: map a block title or image alt
text to the list of applicable asset kinds; `none` embeds Python's `None`
("Video" blocks are excluded entirely). -/
def _parse_asset_type (header : String) : Option (List String) :=
  if pyContains header "Screenshots" then
    some [ASSET_SNAP_ID, ASSET_TITLE_ID]
  else if pyContains header "Box Back" then
    some [ASSET_BOXBACK_ID]
  else if pyContains header "Box Front" then
    some [ASSET_BOXFRONT_ID]
  else if pyContains header "Box" then
    some [ASSET_BOXFRONT_ID, ASSET_BOXBACK_ID]
  else if pyContains header "Video" then
    none
  else
    some [ASSET_SNAP_ID]

/-- The classifier exactly as claim C9 words it: the fourth case requires a
title containing "Box" but neither "Front" nor "Back" (as substrings on
their own), with any title matching no listed case falling to {Snapshot}. -/
def claim_parse_asset_type (header : String) : Option (List String) :=
  if pyContains header "Screenshots" then
    some [ASSET_SNAP_ID, ASSET_TITLE_ID]
  else if pyContains header "Box Back" then
    some [ASSET_BOXBACK_ID]
  else if pyContains header "Box Front" then
    some [ASSET_BOXFRONT_ID]
  else if pyContains header "Box" && !pyContains header "Front" && !pyContains header "Back" then
    some [ASSET_BOXFRONT_ID, ASSET_BOXBACK_ID]
  else if pyContains header "Video" then
    none
  else
    some [ASSET_SNAP_ID]

/-- Claim C9's fourth case amended to exclude the exact phrases the code
tests ("Box Front"/"Box Back") rather than the bare words "Front"/"Back". -/
def amended_parse_asset_type (header : String) : Option (List String) :=
  if pyContains header "Screenshots" then
    some [ASSET_SNAP_ID, ASSET_TITLE_ID]
  else if pyContains header "Box Back" then
    some [ASSET_BOXBACK_ID]
  else if pyContains header "Box Front" then
    some [ASSET_BOXFRONT_ID]
  else if pyContains header "Box" && !pyContains header "Box Front" && !pyContains header "Box Back" then
    some [ASSET_BOXFRONT_ID, ASSET_BOXBACK_ID]
  else if pyContains header "Video" then
    none
  else
    some [ASSET_SNAP_ID]

/-! ### Claim C9: the block-title classifier -/

/-- C9 counterexample: a title containing "Box" together with "Front" (but
not the phrase "Box Front"), such as "Front Box", is classified
{BoxFront, BoxBack} by the code but {Snapshot} by the claim's literal rule,
whose fourth case excludes any title containing "Front" or "Back". -/
theorem C9_classifier_counterexample :
    _parse_asset_type "Front Box" ≠ claim_parse_asset_type "Front Box" ∧
    _parse_asset_type "Front Box" = some [ASSET_BOXFRONT_ID, ASSET_BOXBACK_ID] ∧
    claim_parse_asset_type "Front Box" = some [ASSET_SNAP_ID] := by
  refine ⟨?_, rfl, rfl⟩
  decide

/-- C9 (amended): with the fourth case reading "contains 'Box' but neither
'Box Front' nor 'Box Back'", the claimed classification rule agrees with
the code on every title, and the claim's four examples hold:
"GameFAQs Reader Screenshots" -> {Snapshot, Title}, "Game Box Shots" ->
{BoxFront, BoxBack}, "Box Back" -> {BoxBack}, and an unrecognized title
-> {Snapshot}. -/
theorem C9_classifier_amended :
    (∀ header : String, _parse_asset_type header = amended_parse_asset_type header) ∧
    _parse_asset_type "GameFAQs Reader Screenshots" = some [ASSET_SNAP_ID, ASSET_TITLE_ID] ∧
    _parse_asset_type "Game Box Shots" = some [ASSET_BOXFRONT_ID, ASSET_BOXBACK_ID] ∧
    _parse_asset_type "Box Back" = some [ASSET_BOXBACK_ID] ∧
    _parse_asset_type "Some Unknown Title" = some [ASSET_SNAP_ID] := by
  refine ⟨?_, rfl, rfl, rfl, rfl⟩
  intro header
  unfold _parse_asset_type amended_parse_asset_type
  cases hs : pyContains header "Screenshots" <;>
    cases hbb : pyContains header "Box Back" <;>
      cases hbf : pyContains header "Box Front" <;>
        cases hb : pyContains header "Box" <;>
          simp [hs, hbb, hbf, hb]

/-! ### Player-count parsing (source lines 394-438) -/

/-- The normalization applied by `_parse_nplayers` to the captured
local-players text (source lines 403-415): replace every " Players" and
" Player" occurrence, return the remainder if numeric, else the upper bound
of the first `\d+\-(\d+)` range, else the default sentinel.  Note the local
variant does not remove "Up to ". -/
def normalize_nplayers (nplayers_str : String) : String :=
  let s := pyReplace (pyReplace nplayers_str " Players" "") " Player" ""
  if pyIsNumeric s then s
  else
    match rangeSearchStr s with
    | none => DEFAULT_META_NPLAYERS
    | some m => m

/-- The normalization applied by `_parse_nplayers_online` to the captured
online-players text (source lines 426-438): like the local variant but with
every "Up to " occurrence removed after the Player/Players replacements. -/
def normalize_nplayers_online (nplayers_str : String) : String :=
  let s := pyReplace (pyReplace (pyReplace nplayers_str " Players" "") " Player" "") "Up to " ""
  if pyIsNumeric s then s
  else
    match rangeSearchStr s with
    | none => DEFAULT_META_NPLAYERS
    | some m => m

/-- The capture literal preceding the local-players value in
`regex_meta_nplayers`. -/
def nplayersLocalPre : String :=
  "<div class=\"content\"><span class=\"bold\">Local Players:</span>&nbsp;<span>"

/-- The capture literal preceding the online-players value in
`regex_meta_nplayers_online`. -/
def nplayersOnlinePre : String :=
  "<div class=\"content\"><span class=\"bold\">Online Players:</span>&nbsp;<span>"

/-- The literal closing both player-count captures. -/
def nplayersPost : String := "</span></div>"

/-- `GameFAQs._parse_nplayers(page_data)` (source lines 394-415). -/
def _parse_nplayers (page_data : String) : String :=
  match extractLazyCapture nplayersLocalPre.data nplayersPost.data page_data.data with
  | none => DEFAULT_META_NPLAYERS
  | some t => normalize_nplayers ⟨t⟩

/-- `GameFAQs._parse_nplayers_online(page_data)` (source lines 417-438). -/
def _parse_nplayers_online (page_data : String) : String :=
  match extractLazyCapture nplayersOnlinePre.data nplayersPost.data page_data.data with
  | none => DEFAULT_META_NPLAYERS
  | some t => normalize_nplayers_online ⟨t⟩

/-- The normalization exactly as claim C5 words it, for both fields: strip
one trailing " Players"/" Player" suffix and one optional leading "Up to ",
then the numeric / N-M range / sentinel cascade. -/
def claim_normalize_players (t : String) : String :=
  let cs := t.data
  let cs :=
    if (" Players").data.isSuffixOf cs then cs.take (cs.length - 8)
    else if (" Player").data.isSuffixOf cs then cs.take (cs.length - 7)
    else cs
  let cs := if ("Up to ").data.isPrefixOf cs then cs.drop 6 else cs
  let s : String := ⟨cs⟩
  if pyIsNumeric s then s
  else
    match rangeSearchStr s with
    | none => DEFAULT_META_NPLAYERS
    | some m => m

/-- A concrete data page carrying "Up to 4 Players" in the local-players
field (the claim's shape, fed through the full parser). -/
def upTo4LocalPage : String :=
  "<html>" ++ nplayersLocalPre ++ "Up to 4 Players" ++ nplayersPost ++ "</html>"

/-! ### Claim C5: player-count normalization -/

/-- C5 counterexample: the claim states that both player-count fields strip
an optional leading "Up to ", but the local-players normalization does not:
on "Up to 4 Players" the claimed rule yields "4" while the code's local
parser yields the default sentinel (the remainder "Up to 4" is neither
numeric nor an N-M range). -/
theorem C5_nplayers_counterexample :
    claim_normalize_players "Up to 4 Players" = "4" ∧
    normalize_nplayers "Up to 4 Players" = DEFAULT_META_NPLAYERS ∧
    _parse_nplayers upTo4LocalPage = DEFAULT_META_NPLAYERS ∧
    DEFAULT_META_NPLAYERS ≠ "4" := by
  refine ⟨rfl, rfl, rfl, ?_⟩
  decide

/-- C5 (amended): both normalizations replace every " Players"/" Player"
occurrence and then return the remainder if purely numeric, else the upper
bound M of the first N-M range, else the default sentinel; only the
online-players normalization also removes "Up to ".  In particular
"2-4 Players" yields "4" and "1 Player" yields "1" in both fields,
"Up to 4 Players" yields "4" online but the sentinel locally, and
unparsable text yields the sentinel. -/
theorem C5_nplayers_amended :
    normalize_nplayers "2-4 Players" = "4" ∧
    normalize_nplayers_online "2-4 Players" = "4" ∧
    normalize_nplayers "1 Player" = "1" ∧
    normalize_nplayers_online "1 Player" = "1" ∧
    normalize_nplayers_online "Up to 4 Players" = "4" ∧
    normalize_nplayers "Up to 4 Players" = DEFAULT_META_NPLAYERS ∧
    normalize_nplayers_online "Up to 18 Players" = "18" ∧
    normalize_nplayers "No info" = DEFAULT_META_NPLAYERS ∧
    normalize_nplayers_online "No info" = DEFAULT_META_NPLAYERS := by
  exact ⟨rfl, rfl, rfl, rfl, rfl, rfl, rfl, rfl, rfl⟩

/-! ### Metadata field parsers (source lines 342-490) -/

/-- The outer capture of `regex_meta_year`
(`<div class="content"><b>Release:</b> <a href=".*?">(.*?)</a></div>`):
the release-date text, when the release pattern is present. -/
def regex_meta_year_capture (page_data : String) : Option String :=
  (extractSkipCapture
    ("<div class=\"content\"><b>Release:</b> <a href=\"").data
    ("\">").data
    ("</a></div>").data
    page_data.data).map (fun l => ⟨l⟩)

/-- `GameFAQs._parse_year(page_data)` (source lines 342-354): the first
four-consecutive-digit window of the matched release-date text, `""` when
either pattern misses. -/
def _parse_year (page_data : String) : String :=
  match regex_meta_year_capture page_data with
  | none => ""
  | some date_str =>
    match fourDigitSearch date_str.data with
    | none => ""
    | some y => ⟨y⟩

/-- `GameFAQs._parse_genre(page_data)` (source lines 356-362). -/
def _parse_genre (page_data : String) : String :=
  match extractSkipCapture
      ("<div class=\"content\"><b>Genre:</b> <a href=\"").data
      ("\">").data
      ("</a>").data
      page_data.data with
  | some g => ⟨g⟩
  | none => ""

/-- `GameFAQs._parse_developer(page_data)` (source lines 364-378):
`regex_meta_dev_a` (combined Developer/Publisher) first, then
`regex_meta_dev_b`. -/
def _parse_developer (page_data : String) : String :=
  match extractSkipCapture
      ("<div class=\"content\"><b>Developer/Publisher: </b><a href=\"").data
      ("\">").data
      ("</a></div>").data
      page_data.data with
  | some d => ⟨d⟩
  | none =>
    match extractSkipCapture
        ("<div class=\"content\"><b>Developer: </b><a href=\"").data
        ("\">").data
        ("</a></div>").data
        page_data.data with
    | some d => ⟨d⟩
    | none => ""

/-- Skip one HTML tag: consume through the first `>` (helper for the
modelled external tag stripper). -/
def dropTag : List Char → List Char
  | [] => []
  | '>' :: cs => cs
  | _ :: cs => dropTag cs

/-- Fuel-driven tag removal loop. -/
def stripTagsLoop : Nat → List Char → List Char
  | 0, s => s
  | _, [] => []
  | fuel + 1, c :: cs =>
    if c = '<' then stripTagsLoop fuel (dropTag cs)
    else c :: stripTagsLoop fuel cs

/-- Modelled from the spec: the external helper `text.remove_HTML_tags`
used on the plot text; it strips `<...>` tag spans. -/
def text_remove_HTML_tags (s : String) : String :=
  ⟨stripTagsLoop s.data.length s.data⟩

/-- `GameFAQs._parse_plot(page_data)` (source lines 380-392). -/
def _parse_plot (page_data : String) : String :=
  match extractLazyCapture ("<div class=\"game_desc\">").data ("</div>").data page_data.data with
  | some p => text_remove_HTML_tags ⟨p⟩
  | none => ""

/-- The capture of `regex_meta_esrb`
(`<div class="esrb"><p><span title=".*?" class="esrb_logo (.*?)"></span></p></div>`). -/
def regex_meta_esrb_capture (page_data : String) : Option String :=
  (extractSkipCapture
    ("<div class=\"esrb\"><p><span title=\"").data
    ("\" class=\"esrb_logo ").data
    ("\"></span></p></div>").data
    page_data.data).map (fun l => ⟨l⟩)

/-- `GameFAQs._parse_esrb(page_data)` (source lines 440-464). -/
def _parse_esrb (page_data : String) : String :=
  match regex_meta_esrb_capture page_data with
  | none => ESRB_PENDING
  | some esrb_code0 =>
    let esrb_code := pyReplace esrb_code0 "esrb_logo_" ""
    if esrb_code = "e" then ESRB_EVERYONE
    else if esrb_code = "ec" then ESRB_EARLY
    else if esrb_code = "e10" then ESRB_EVERYONE_10
    else if esrb_code = "t" then ESRB_TEEN
    else if esrb_code = "ao" then ESRB_ADULTS_ONLY
    else if esrb_code = "m" then ESRB_MATURE
    else ESRB_PENDING

/-- `GameFAQs._parse_rating(page_data)` (source lines 466-472), embedding
`regex_meta_rating` (`... title="Average: (.*?) stars from \d*? users">`):
capture up to " stars from ", then the lazy digit run must be followed by
the closing literal.  Python's `None` on a miss becomes `none`. -/
def _parse_rating (page_data : String) : Option String :=
  match dropToLit ("<div class=\"gamespace_rate_half\" title=\"Average: ").data page_data.data with
  | none => none
  | some r =>
    match takeUntilLit (" stars from ").data r with
    | none => none
    | some (cap, rest) =>
      if (" users\">").data.isPrefixOf (rest.dropWhile Char.isDigit) then some ⟨cap⟩
      else none

/-- `GameFAQs._parse_metacritics(page_data)` (source lines 474-490),
embedding `regex_metacritic`: on a match, the extra-field pairs
`metacritics_link` (group 1) and `metacritics` (group 2, the all-digit
score); on a miss, the empty mapping. -/
def _parse_metacritics (page_data : String) : List (String × String) :=
  match dropToLit ("<div class=\"metacritic\"><div title=\"Metacritic\" class=\"title\"> </div><a href=\"").data page_data.data with
  | none => []
  | some r =>
    match takeUntilLit ("\"><div class=\"score score_").data r with
    | none => []
    | some (critics_lnk, r2) =>
      match dropToLit ("\" title=\"Metascore ").data r2 with
      | none => []
      | some r3 =>
        match dropToLit ("\">").data r3 with
        | none => []
        | some r4 =>
          let critics_score := r4.takeWhile Char.isDigit
          match dropToLit ("</div></a><a href=\"").data (r4.drop critics_score.length) with
          | none => []
          | some r5 =>
            match dropToLit ("\">").data r5 with
            | none => []
            | some r6 =>
              match dropToLit ("</a></div>").data r6 with
              | none => []
              | some _ =>
                [("metacritics_link", (⟨critics_lnk⟩ : String)),
                 ("metacritics", (⟨critics_score⟩ : String))]

/-! ### Claim C10: the year extractor -/

/-- Window predicate: the four characters of `l` starting at index `i`
exist and are all decimal digits. -/
def digitWindowAt (l : List Char) (i : Nat) : Bool :=
  ((l.drop i).take 4).length == 4 && ((l.drop i).take 4).all Char.isDigit

/-- The head window of a list with at least four elements is a digit window
exactly when its four head characters are digits. -/
theorem digitWindowAt_cons4 (a b c d : Char) (rest : List Char) :
    digitWindowAt (a :: b :: c :: d :: rest) 0
      = (a.isDigit && b.isDigit && c.isDigit && d.isDigit) := by
  cases ha : a.isDigit <;> cases hb : b.isDigit <;> cases hc : c.isDigit <;>
    cases hd : d.isDigit <;> simp [digitWindowAt, ha, hb, hc, hd]

/-- Shifting a digit window past the head of the list. -/
theorem digitWindowAt_cons_succ (a : Char) (t : List Char) (j : Nat) :
    digitWindowAt (a :: t) (j + 1) = digitWindowAt t j := by
  simp [digitWindowAt]

/-- `fourDigitSearch` returns precisely the earliest window of four
consecutive decimal digits. -/
theorem fourDigitSearch_spec :
    ∀ l w : List Char, fourDigitSearch l = some w →
      w.length = 4 ∧ w.all Char.isDigit = true ∧
      ∃ i, (l.drop i).take 4 = w ∧ digitWindowAt l i = true ∧
        ∀ j, j < i → digitWindowAt l j = false := by
  intro l
  induction l with
  | nil => intro w h; simp [fourDigitSearch] at h
  | cons a t ih =>
    intro w h
    cases t with
    | nil => simp [fourDigitSearch] at h
    | cons b t2 =>
      cases t2 with
      | nil => simp [fourDigitSearch] at h
      | cons c t3 =>
        cases t3 with
        | nil => simp [fourDigitSearch] at h
        | cons d rest =>
          by_cases hd : (a.isDigit && b.isDigit && c.isDigit && d.isDigit) = true
          · rw [fourDigitSearch, if_pos hd] at h
            cases h
            have h4 := hd
            simp only [Bool.and_eq_true] at h4
            refine ⟨rfl, ?_, 0, rfl, ?_, ?_⟩
            · simp [List.all_cons, h4.1.1.1, h4.1.1.2, h4.1.2, h4.2]
            · rw [digitWindowAt_cons4]; exact hd
            · intro j hj; omega
          · rw [fourDigitSearch, if_neg hd] at h
            obtain ⟨hl, hall, i, hw, hwin, hmin⟩ := ih w h
            refine ⟨hl, hall, i + 1, hw, ?_, ?_⟩
            · rw [digitWindowAt_cons_succ]; exact hwin
            · intro j hj
              cases j with
              | zero =>
                rw [digitWindowAt_cons4]
                exact Bool.not_eq_true _ ▸ Bool.of_not_eq_true hd
              | succ j' =>
                rw [digitWindowAt_cons_succ]
                exact hmin j' (by omega)

/-- C10: for every input page, `_parse_year` returns either the empty string
(release pattern or four-digit window absent) or the earliest window of four
consecutive decimal digits of the matched release-date text; the result is
always empty or a four-character digit string. -/
theorem C10_parse_year (page : String) :
    _parse_year page = "" ∨
    ∃ d i, regex_meta_year_capture page = some d ∧
      (_parse_year page).data = (d.data.drop i).take 4 ∧
      digitWindowAt d.data i = true ∧
      (∀ j, j < i → digitWindowAt d.data j = false) ∧
      (_parse_year page).length = 4 ∧
      (_parse_year page).data.all Char.isDigit = true := by
  rcases hcap : regex_meta_year_capture page with _ | d
  · left; unfold _parse_year; rw [hcap]
  · rcases hfd : fourDigitSearch d.data with _ | y
    · left; unfold _parse_year; rw [hcap]; simp [hfd]
    · have hy : _parse_year page = ⟨y⟩ := by
        unfold _parse_year; rw [hcap]; simp [hfd]
      obtain ⟨hl, hall, i, hw, hwin, hmin⟩ := fourDigitSearch_spec d.data y hfd
      right
      exact ⟨d, i, rfl, by rw [hy]; exact hw.symm, hwin, hmin,
        by rw [hy]; exact hl, by rw [hy]; exact hall⟩

/-! ### Search-result row parsing and scoring (source lines 262-337) -/

/-- Modelled from the spec: the external helper `text.unescape_HTML`
applied to the captured result title; it rewrites the common HTML entities. -/
def text_unescape_HTML (s : String) : String :=
  pyReplace (pyReplace (pyReplace (pyReplace s "&quot;" "\"") "&lt;" "<") "&gt;" ">") "&amp;" "&"

/-- One tuple produced by `regex_candidates.findall`: capture 0 is the
platform cell, 1 the `data-pid`, 2 the `href`, 3 the (still HTML-escaped)
title, 4 the release cell and 5 the trailing cell. -/
structure CandidateRow where
  c0 : String
  c1 : String
  c2 : String
  c3 : String
  c4 : String
  c5 : String
deriving DecidableEq

/-- Try to match `regex_candidates` at the head of `s`; on success return
the captures and the remainder after the match.  Each lazy capture runs to
the first occurrence of the following literal, each `[0-9]+` is a maximal
nonempty digit run that must be followed by its literal. -/
def matchRowAt (s : List Char) : Option (CandidateRow × List Char) :=
  let lit0 := ("<tr><td>").data
  if lit0.isPrefixOf s then
    match takeUntilLit ("</td><td><a class=\"log_search\" data-row=\"").data (s.drop lit0.length) with
    | none => none
    | some (c0, r1) =>
      let ds := r1.takeWhile Char.isDigit
      let lit2 := ("\" data-col=\"1\" data-pid=\"").data
      if ds.isEmpty || !(lit2.isPrefixOf (r1.drop ds.length)) then none
      else
        let r2 := (r1.drop ds.length).drop lit2.length
        let pid := r2.takeWhile Char.isDigit
        let lit3 := ("\" href=\"").data
        if pid.isEmpty || !(lit3.isPrefixOf (r2.drop pid.length)) then none
        else
          match takeUntilLit ("\">").data ((r2.drop pid.length).drop lit3.length) with
          | none => none
          | some (c2, r4) =>
            match takeUntilLit ("</a></td><td>").data r4 with
            | none => none
            | some (c3, r5) =>
              match takeUntilLit ("</td><td>").data r5 with
              | none => none
              | some (c4, r6) =>
                match takeUntilLit ("</td></tr>").data r6 with
                | none => none
                | some (c5, r7) =>
                  some (⟨⟨c0⟩, ⟨pid⟩, ⟨c2⟩, ⟨c3⟩, ⟨c4⟩, ⟨c5⟩⟩, r7)
  else none

/-- `regex_candidates.findall` as a left-to-right scan: at each position try
a row match, emit it and continue after the match, else advance one
character.  The fuel starts at the input length and bounds both moves. -/
def scanRows : Nat → List Char → List CandidateRow
  | 0, _ => []
  | _, [] => []
  | fuel + 1, c :: cs =>
    match matchRowAt (c :: cs) with
    | some (row, rest) => row :: scanRows fuel rest
    | none => scanRows fuel cs

/-- All candidate rows of a cleaned results page, in page order. -/
def parseRows (s : List Char) : List CandidateRow :=
  scanRows s.length s

/-- One entry of the scraper's candidate list (`_new_candidate_dic()` plus
the fields set in `_get_candidates_from_page`). -/
structure CandidateDict where
  id : String
  display_name : String
  platform : Nat
  scraper_platform : Nat
  order : Nat
  game_name : String
deriving DecidableEq

/-- The `platform_id` computation of source lines 301-306: look the
lowercased platform cell up in the forward table, fall back to the second
path segment of the href, default 0. -/
def row_platform_id (row : CandidateRow) : Nat :=
  match List.lookup row.c0.toLower AKL_compact_platform_GameFaqs_mapping with
  | some v => v
  | none =>
    match List.lookup (pySplitSecond '/' row.c2) AKL_compact_platform_GameFaqs_mapping with
    | some v => v
    | none => 0

/-- The candidate built and scored from one parsed row (source lines
295-324): baseline order 1, plus one point each for a case-insensitive
exact title match, a case-insensitive substring match and, when a specific
platform was requested, a platform match. -/
def mk_candidate (search_term : String) (scraper_platform : Nat) (row : CandidateRow) : CandidateDict :=
  let game_name := text_unescape_HTML row.c3
  let platform_id := row_platform_id row
  let game : CandidateDict :=
    { id := row.c1,
      display_name := game_name ++ " (" ++ row.c4 ++ ") / " ++ row.c0,
      platform := platform_id,
      scraper_platform := scraper_platform,
      order := 1,
      game_name := game_name }
  let game :=
    if game_name.toLower = search_term.toLower then { game with order := game.order + 1 } else game
  let game :=
    if pyContains game_name.toLower search_term.toLower then { game with order := game.order + 1 } else game
  let game :=
    if 0 < scraper_platform ∧ platform_id = scraper_platform then { game with order := game.order + 1 } else game
  game

/-! ### Claim C6: candidate scoring -/

/-- C6: every parsed row's candidate score is 1 plus three independent +1
bonuses — case-insensitive exact title match, case-insensitive substring
containment of the query in the title, and (only when a specific platform
was requested) parsed platform equal to the requested site code — and hence
lies in [1,4]. -/
theorem C6_candidate_score (row : CandidateRow) (search_term : String) (scraper_platform : Nat) :
    (mk_candidate search_term scraper_platform row).order
      = 1 + (if (text_unescape_HTML row.c3).toLower = search_term.toLower then 1 else 0)
          + (if pyContains (text_unescape_HTML row.c3).toLower search_term.toLower then 1 else 0)
          + (if 0 < scraper_platform ∧ row_platform_id row = scraper_platform then 1 else 0) ∧
    1 ≤ (mk_candidate search_term scraper_platform row).order ∧
    (mk_candidate search_term scraper_platform row).order ≤ 4 := by
  simp only [mk_candidate]
  split_ifs <;> simp

/-! ### The stable descending sort `game_list.sort(key=order, reverse=True)`

Python's `list.sort` is stable; with `reverse=True` it produces the unique
stable descending arrangement by key, which insertion sort under the
relation "my order is at least yours" computes. -/

/-- The comparison used by the sort: `a` may precede `b` when
`b.order ≤ a.order`. -/
def ordGE (a b : CandidateDict) : Prop := b.order ≤ a.order

instance : DecidableRel ordGE := fun a b => Nat.decLe b.order a.order

instance : IsTotal CandidateDict ordGE := ⟨fun a b => le_total b.order a.order⟩

instance : IsTrans CandidateDict ordGE := ⟨fun _ _ _ hab hbc => le_trans hbc hab⟩

/-- The embedding of `game_list.sort(key=lambda result: result['order'],
reverse=True)`: a stable descending insertion sort. -/
def pySortDesc (l : List CandidateDict) : List CandidateDict :=
  List.insertionSort ordGE l

/-- Inserting `a` skips only elements of strictly larger order, so the
elements of any fixed order `k` keep their relative positions. -/
theorem filter_orderedInsert (k : Nat) (a : CandidateDict) (L : List CandidateDict) :
    (List.orderedInsert ordGE a L).filter (fun c => c.order == k)
      = if a.order = k then a :: L.filter (fun c => c.order == k)
        else L.filter (fun c => c.order == k) := by
  induction L with
  | nil => by_cases h : a.order = k <;> simp [List.orderedInsert, h]
  | cons b L ih =>
    by_cases hr : ordGE a b
    · rw [List.orderedInsert, if_pos hr]
      by_cases h : a.order = k <;> simp [List.filter_cons, h]
    · rw [List.orderedInsert, if_neg hr]
      have hlt : a.order < b.order := Nat.lt_of_not_le hr
      by_cases h : a.order = k
      · have hbk : ¬ b.order = k := by omega
        simp [List.filter_cons, hbk, ih, h]
      · by_cases hbk : b.order = k <;> simp [List.filter_cons, hbk, ih, h]

/-- Stability of the embedded sort: for every order value `k`, filtering
the sorted list at `k` gives exactly the filter of the input. -/
theorem filter_pySortDesc (k : Nat) (l : List CandidateDict) :
    (pySortDesc l).filter (fun c => c.order == k) = l.filter (fun c => c.order == k) := by
  induction l with
  | nil => rfl
  | cons a l ih =>
    unfold pySortDesc at ih
    show (List.orderedInsert ordGE a (List.insertionSort ordGE l)).filter _ = _
    rw [filter_orderedInsert]
    by_cases h : a.order = k <;> simp [List.filter_cons, h, ih]

/-- The embedded sort is sorted under `ordGE`, i.e. by non-increasing
order. -/
theorem sorted_pySortDesc (l : List CandidateDict) : List.Sorted ordGE (pySortDesc l) :=
  List.sorted_insertionSort ordGE l

/-! ### Transport, status object and scraper state -/

/-- One transport request: `net.get_URL` is a call with no payload,
`net.post_URL` a call with the urlencoded form payload. -/
structure NetCall where
  url : String
  payload : Option String
deriving DecidableEq

/-- The transport collaborator as an oracle: body and HTTP status code per
request.  The session plumbing of `start_http_session` opens no
connection and is not modelled. -/
def Net : Type := NetCall → String × Nat

/-- The caller's shared status object (`status_dic`): `status` is the
success flag the host convention sets to `false` on failure. -/
structure StatusDic where
  status : Bool := true
  msg : String := ""
deriving DecidableEq

/-- The metadata record built by `get_metadata`
(`_new_gamedata_dic()` plus the fields the adapter sets); `rating` is
`Option` because `_parse_rating` can return Python `None`. -/
structure GameData where
  title : String := ""
  year : String := ""
  genre : String := ""
  developer : String := ""
  rating : Option String := none
  nplayers : String := ""
  nplayers_online : String := ""
  esrb : String := ""
  plot : String := ""
  extra : List (String × String) := []
deriving DecidableEq

/-- Modelled from the spec: the fresh default record returned by the
external base-class helper `_new_gamedata_dic()`. -/
def _new_gamedata_dic : GameData := {}

/-- One asset descriptor (`_new_assetdata_dic()` plus the fields set in
`_load_assets_from_page`). -/
structure AssetDict where
  asset_ID : String := ""
  display_name : String := ""
  url_thumb : String := ""
  url : String := ""
  is_on_page : Bool := false
deriving DecidableEq

/-- The adapter state threaded through the public operations: the disabled
flag, the selected candidate (`self.candidate`), the cache key set by the
host, the persistent metadata cache (external collaborator, modelled from
the spec as a key-value store) and the in-run asset-batch cache
(`self.all_asset_cache`). -/
structure ScraperState where
  scraper_disabled : Bool
  candidate_id : String
  candidate_game_name : String
  cache_key : String
  metadata_cache : List (String × GameData)
  all_asset_cache : List (String × List AssetDict)

/-- `GameFAQs.base_url`. -/
def base_url : String := "https://gamefaqs.gamespot.com"

/-- The advanced-search URL of `_get_candidates_from_page`. -/
def searchURL (search_term : String) : String :=
  base_url ++ "/search_advanced?game=" ++ search_term

/-- The urlencoded POST form of `_get_candidates_from_page`
(`{'game_type': 0, 'game': term, 'platform': code}`); percent-escaping of
the term is not modelled. -/
def urlencodeSearch (search_term : String) (scraper_platform : Nat) : String :=
  "game_type=0&game=" ++ search_term ++ "&platform=" ++ toString scraper_platform

/-- The POST request that produces the results page. -/
def searchPost (search_term : String) (scraper_platform : Nat) : NetCall :=
  { url := searchURL search_term, payload := some (urlencodeSearch search_term scraper_platform) }

/-! ### Candidate Resolver (source lines 116-134 and 262-337) -/

/-- The fetch-and-score phase of `_get_candidates_from_page` (source lines
262-324): warm-up GET, POST of the search form, cleanup, row parsing and
scoring, in page order; a non-200 status is only logged.  Returns the
scored list and the fetch count. -/
def _get_candidates_rows (net : Net) (search_term : String) (scraper_platform : Nat) :
    List CandidateDict × Nat :=
  let _warmup := net { url := searchURL search_term, payload := none }
  let resp := net (searchPost search_term scraper_platform)
  let page := pyClean resp.1
  ((parseRows page.data).map (mk_candidate search_term scraper_platform), 2)

/-- `GameFAQs._get_candidates_from_page` (source lines 262-337): the scored
rows, sorted by descending score. -/
def _get_candidates_from_page (net : Net) (search_term : String) (scraper_platform : Nat) :
    List CandidateDict × Nat :=
  let r := _get_candidates_rows net search_term scraper_platform
  (pySortDesc r.1, r.2)

/-- `GameFAQs.get_candidates` (source lines 116-134): `none` embeds the
Python `None` returned when the scraper is disabled; otherwise the page
list is sorted (again) by descending score.  `status_dic` is returned as
the code leaves it — it is never written.  The unused `rom` argument is
omitted. -/
def get_candidates (net : Net) (st : ScraperState) (status_dic : StatusDic)
    (search_term : String) (platform : AKLPlatform) :
    Option (List CandidateDict) × StatusDic × Nat :=
  if st.scraper_disabled then (none, status_dic, 0)
  else
    let scraper_platform := convert_AKL_platform_to_GameFaqs platform
    let r := _get_candidates_from_page net search_term scraper_platform
    (some (pySortDesc r.1), status_dic, r.2)

/-! ### Metadata Extractor (source lines 138-190) -/

/-- `GameFAQs.get_metadata` (source lines 138-190): disabled guard, then
persistent-cache hit, else fetch the detail page and the `/data` sub-page,
parse every field independently, store the record in the cache and return
it.  The result carries the record, the updated state and the fetch
count. -/
def get_metadata (net : Net) (st : ScraperState) : GameData × ScraperState × Nat :=
  if st.scraper_disabled then (_new_gamedata_dic, st, 0)
  else
    match List.lookup st.cache_key st.metadata_cache with
    | some gd => (gd, st, 0)
    | none =>
      let cid := st.candidate_id
      let page := pyClean (net { url := base_url ++ "/" ++ cid, payload := none }).1
      let data_page := pyClean (net { url := base_url ++ "/" ++ cid ++ "/data", payload := none }).1
      let game_data : GameData :=
        { title := st.candidate_game_name,
          year := _parse_year page,
          genre := _parse_genre page,
          developer := _parse_developer page,
          rating := _parse_rating page,
          nplayers := _parse_nplayers data_page,
          nplayers_online := _parse_nplayers_online data_page,
          esrb := _parse_esrb page,
          plot := _parse_plot page,
          extra := ("gamefaq_id", cid) :: _parse_metacritics page }
      (game_data,
        { st with metadata_cache := (st.cache_key, game_data) :: st.metadata_cache }, 2)

/-! ### Asset Extractor (source lines 192-207 and 492-602) -/

/-- One block matched by `regex_assets`: group 1 (the `<h2>` title) and
group 3 (the `<ol>` body); the optional `contrib_jumper` group is
consumed but unused. -/
structure BlockMatch where
  title : String
  body : String
deriving DecidableEq

/-- Try to match `regex_assets` at the head of `s`. -/
def matchBlockAt (s : List Char) : Option (BlockMatch × List Char) :=
  let lit0 := ("<div class=\"head\"><h2 class=\"title\">").data
  if lit0.isPrefixOf s then
    match takeUntilLit ("</h2></div>").data (s.drop lit0.length) with
    | none => none
    | some (title, r1) =>
      if title.isEmpty then none
      else
        let jump := ("<div class=\"contrib_jumper\">").data
        let r2opt :=
          if jump.isPrefixOf r1 then
            match takeUntilLit ("</div>").data (r1.drop jump.length) with
            | none => none
            | some (j, r2) => if j.isEmpty then none else some r2
          else some r1
        match r2opt with
        | none => none
        | some r2 =>
          let lit2 := ("<div class=\"body\"><ol class=\"list flex col5 ").data
          if lit2.isPrefixOf r2 then
            match dropToLit ("\">").data (r2.drop lit2.length) with
            | none => none
            | some r3 =>
              match takeUntilLit ("</ol></div>").data r3 with
              | none => none
              | some (body, r4) => some (⟨⟨title⟩, ⟨body⟩⟩, r4)
          else none
  else none

/-- `regex_assets.findall` as a fuel-driven scan. -/
def scanBlocks : Nat → List Char → List BlockMatch
  | 0, _ => []
  | _, [] => []
  | fuel + 1, c :: cs =>
    match matchBlockAt (c :: cs) with
    | some (blk, rest) => blk :: scanBlocks fuel rest
    | none => scanBlocks fuel cs

/-- All titled asset blocks of a cleaned images page, in page order. -/
def parseAssetBlocks (s : List Char) : List BlockMatch :=
  scanBlocks s.length s

/-- One entry matched by `regex_asset_links`: the detail link, the
thumbnail URL and the optional alt text. -/
structure LinkMatch where
  lnk : String
  thumb : String
  alt : Option String
deriving DecidableEq

/-- Try to match `regex_asset_links` at the head of `s` (`\s` is modelled
as a space: the page has been stripped of tabs and newlines). -/
def matchLinkAt (s : List Char) : Option (LinkMatch × List Char) :=
  let lit0 := ("<a href=\"").data
  if lit0.isPrefixOf s then
    match takeUntilLit ("\"><img class=\"").data (s.drop lit0.length) with
    | none => none
    | some (lnk, r1) =>
      if lnk.isEmpty then none
      else
        let r2 := if ("img100 ").data.isPrefixOf r1 then r1.drop 7 else r1
        let lit2 := ("imgboxart\" src=\"").data
        if lit2.isPrefixOf r2 then
          match takeUntilLit ("\" ").data (r2.drop lit2.length) with
          | none => none
          | some (thumb, r3) =>
            if thumb.isEmpty then none
            else
              let altLit := ("alt=\"").data
              let step :=
                if altLit.isPrefixOf r3 then
                  match takeUntilLit ("\"").data (r3.drop altLit.length) with
                  | none => none
                  | some (alt, r4) => some (some (⟨alt⟩ : String), r4)
                else some (none, r3)
              match step with
              | none => none
              | some (alt, r4) =>
                let r5 := if r4.head? = some ' ' then r4.drop 1 else r4
                let tail := ("/></a>").data
                if tail.isPrefixOf r5 then
                  some (⟨⟨lnk⟩, ⟨thumb⟩, alt⟩, r5.drop tail.length)
                else none
        else none
  else none

/-- `regex_asset_links.finditer` as a fuel-driven scan. -/
def scanLinks : Nat → List Char → List LinkMatch
  | 0, _ => []
  | _, [] => []
  | fuel + 1, c :: cs =>
    match matchLinkAt (c :: cs) with
    | some (lm, rest) => lm :: scanLinks fuel rest
    | none => scanLinks fuel cs

/-- All image entries of one block body, in page order. -/
def parseAssetLinks (s : List Char) : List LinkMatch :=
  scanLinks s.length s

/-- The triple inner loop of `_load_assets_from_page` (source lines
562-593): classify each block title, skip `None` (Video) blocks, and emit
one asset per applicable kind and image entry, with the `&amp;img=1`
link-marker disambiguation between Title and Snapshot. -/
def assetsOfBlocks (blocks : List BlockMatch) : List AssetDict :=
  blocks.flatMap (fun blk =>
    match _parse_asset_type blk.title with
    | none => []
    | some asset_infos =>
      (parseAssetLinks blk.body.data).flatMap (fun m =>
        asset_infos.filterMap (fun asset_id =>
          if asset_id = ASSET_TITLE_ID ∧ ¬ pyContains m.lnk "&amp;img=1" then none
          else if asset_id = ASSET_SNAP_ID ∧ pyContains m.lnk "&amp;img=1" then none
          else
            some { asset_ID := asset_id,
                   display_name := m.alt.getD "",
                   url_thumb := m.thumb,
                   url := m.lnk,
                   is_on_page := true })))

/-- `GameFAQs._load_assets_from_page` (source lines 548-602): fetch the
images page, segment it into titled blocks and emit the typed asset
descriptors; one fetch. -/
def _load_assets_from_page (net : Net) (candidate_id : String) : List AssetDict × Nat :=
  let page := pyClean (net { url := base_url ++ "/" ++ candidate_id ++ "/images", payload := none }).1
  (assetsOfBlocks (parseAssetBlocks page.data), 1)

/-- `GameFAQs._retrieve_all_assets` (source lines 495-507): the in-run
asset-batch cache keyed by the candidate id. -/
def _retrieve_all_assets (net : Net) (st : ScraperState) (candidate_id : String) :
    List AssetDict × ScraperState × Nat :=
  match List.lookup candidate_id st.all_asset_cache with
  | some asset_list => (asset_list, st, 0)
  | none =>
    let r := _load_assets_from_page net candidate_id
    (r.1, { st with all_asset_cache := (candidate_id, r.1) :: st.all_asset_cache }, r.2)

/-- `GameFAQs.get_assets` (source lines 192-207): disabled guard, cached
batch retrieval, the `status_dic['status']` check (`none` embeds the
Python `None` return) and the pure kind filter. -/
def get_assets (net : Net) (st : ScraperState) (status_dic : StatusDic) (asset_info_id : String) :
    Option (List AssetDict) × ScraperState × Nat :=
  if st.scraper_disabled then (some [], st, 0)
  else
    let r := _retrieve_all_assets net st st.candidate_id
    if status_dic.status = false then (none, r.2.1, r.2.2)
    else (some (r.1.filter (fun a => a.asset_ID == asset_info_id)), r.2.1, r.2.2)

/-! ### Asset Resolver (source lines 220-243) -/

/-- One entry matched by `regex_asset_urls`: the full-resolution
`data-img` URL and the alt text. -/
structure ImgMatch where
  url : String
  alt : String
deriving DecidableEq

/-- Consume the `\s\s?` after the optional `full_boxshot` class literal:
one mandatory space, one optional. -/
def dropSpace12 (s : List Char) : Option (List Char) :=
  match s with
  | ' ' :: ' ' :: rest => some rest
  | ' ' :: rest => some rest
  | _ => none

/-- Skip the optional `class="full_boxshot imgboxart cte"\s\s?` group of
`regex_asset_urls`. -/
def skipBoxshotClass (s : List Char) : Option (List Char) :=
  let cls := ("class=\"full_boxshot imgboxart cte\"").data
  if cls.isPrefixOf s then dropSpace12 (s.drop cls.length) else some s

/-- Try to match `regex_asset_urls` at the head of `s`. -/
def matchImgAt (s : List Char) : Option (ImgMatch × List Char) :=
  let lit0 := ("<img ").data
  if lit0.isPrefixOf s then
    match skipBoxshotClass (s.drop lit0.length) with
    | none => none
    | some r0 =>
      let litW := ("data-img-width=\"").data
      if !(litW.isPrefixOf r0) then none
      else
        let r1 := r0.drop litW.length
        let w := r1.takeWhile Char.isDigit
        let litH := ("\" data-img-height=\"").data
        if w.isEmpty || !(litH.isPrefixOf (r1.drop w.length)) then none
        else
          let r2 := (r1.drop w.length).drop litH.length
          let hgt := r2.takeWhile Char.isDigit
          let litI := ("\" data-img=\"").data
          if hgt.isEmpty || !(litI.isPrefixOf (r2.drop hgt.length)) then none
          else
            match takeUntilLit ("\" ").data ((r2.drop hgt.length).drop litI.length) with
            | none => none
            | some (url, r3) =>
              if url.isEmpty then none
              else
                match skipBoxshotClass r3 with
                | none => none
                | some r4 =>
                  let litS := ("src=\"").data
                  if !(litS.isPrefixOf r4) then none
                  else
                    match takeUntilLit ("\" alt=\"").data (r4.drop litS.length) with
                    | none => none
                    | some (src, r5) =>
                      if src.isEmpty then none
                      else
                        match takeUntilLit ("\"").data r5 with
                        | none => none
                        | some (alt, r6) =>
                          if alt.isEmpty then none
                          else
                            let r7 := if (" /").data.isPrefixOf r6 then r6.drop 2 else r6
                            match r7 with
                            | '>' :: r8 => some (⟨⟨url⟩, ⟨alt⟩⟩, r8)
                            | _ => none
  else none

/-- `regex_asset_urls.finditer` as a fuel-driven scan. -/
def scanImgs : Nat → List Char → List ImgMatch
  | 0, _ => []
  | _, [] => []
  | fuel + 1, c :: cs =>
    match matchImgAt (c :: cs) with
    | some (im, rest) => im :: scanImgs fuel rest
    | none => scanImgs fuel cs

/-- All full-resolution image entries of a cleaned detail page. -/
def parseImgMatches (s : List Char) : List ImgMatch :=
  scanImgs s.length s

/-- The scan loop of `resolve_asset_URL` (source lines 229-239): classify
each image's alt text with `_parse_asset_type` and return the first URL
whose kind list contains the requested kind; `Except.error` embeds the
`TypeError` Python raises on `asset_id in None` when a classification
returns `None` (an alt text containing "Video"); the empty pair is the
no-match result. -/
def firstImageMatch (asset_id : String) : List ImgMatch → Except Unit (String × String)
  | [] => .ok ("", "")
  | im :: rest =>
    match _parse_asset_type im.alt with
    | none => .error ()
    | some image_asset_ids =>
      if image_asset_ids.contains asset_id then .ok (im.url, im.url)
      else firstImageMatch asset_id rest

/-- `GameFAQs.resolve_asset_URL` (source lines 220-239).  Note: the method
reads nothing from the adapter state — in particular it does not test
`scraper_disabled` — and always fetches the detail page, so the fetch
count is 1 unconditionally. -/
def resolve_asset_URL (net : Net) (st : ScraperState) (selected_asset : AssetDict) :
    Except Unit (String × String) × Nat :=
  let page := pyClean (net { url := base_url ++ selected_asset.url, payload := none }).1
  (firstImageMatch selected_asset.asset_ID (parseImgMatches page.data), 1)

/-- Modelled from the spec: the external helper `io.get_URL_extension`,
a pure string operation returning the text after the final dot of the URL
(empty when there is none). -/
def io_get_URL_extension (url : String) : String :=
  match (url.data.splitOn '.').getLast? with
  | some ext => if (url.data.splitOn '.').length ≤ 1 then "" else ⟨ext⟩
  | none => ""

/-- `GameFAQs.resolve_asset_URL_extension` (source lines 242-243): a pure
delegation to the external extension helper; no disabled-flag test, no
fetch. -/
def resolve_asset_URL_extension (st : ScraperState) (selected_asset : AssetDict)
    (image_url : String) : String × Nat :=
  (io_get_URL_extension image_url, 0)

/-! ### Concrete fixtures for counterexamples and witnesses -/

/-- A transport returning an empty 200 body for every request. -/
def netEmpty : Net := fun _ => ("", 200)

/-- A transport failing every request with status 500 and an empty body. -/
def net500 : Net := fun _ => ("", 500)

/-- An enabled adapter with a selected Castlevania candidate and empty
caches. -/
def stEnabled : ScraperState :=
  { scraper_disabled := false,
    candidate_id := "nes/578318-castlevania",
    candidate_game_name := "Castlevania",
    cache_key := "key1",
    metadata_cache := [],
    all_asset_cache := [] }

/-- The same adapter state with the scraper disabled. -/
def stDisabled : ScraperState := { stEnabled with scraper_disabled := true }

/-- A selected snapshot asset whose detail page is to be resolved. -/
def selSnapAsset : AssetDict :=
  { asset_ID := ASSET_SNAP_ID, url := "/nes/578318-castlevania/images/21" }

/-- A detail page whose single full-resolution image has an alt text
containing "Video" and none of the box/screenshot keywords. -/
def videoAltPage : String :=
  "<img data-img-width=\"320\" data-img-height=\"224\" data-img=\"https://gamefaqs.akamaized.net/screens/full.png\" src=\"thumb.png\" alt=\"Gameplay Video\">"

/-- A transport serving `videoAltPage` for every request. -/
def netVideoPage : Net := fun _ => (videoAltPage, 200)

/-! ### Claim C2: the disabled-adapter guard -/

/-- C2 counterexample: with the adapter disabled, `resolve_asset_URL`
still issues its network fetch (count 1, not 0) — it has no disabled
guard, contradicting the claim that every public operation checks the
flag first and touches no network. -/
theorem C2_disabled_counterexample :
    stDisabled.scraper_disabled = true ∧
    (resolve_asset_URL netEmpty stDisabled selSnapAsset).2 = 1 ∧
    (resolve_asset_URL netEmpty stDisabled selSnapAsset).2 ≠ 0 := by
  refine ⟨rfl, rfl, ?_⟩
  decide

/-- C2 (amended): when the adapter is disabled, `get_candidates`,
`get_metadata` and `get_assets` short-circuit to `None`/default/empty with
zero fetches and unchanged state, but `resolve_asset_URL` has no disabled
guard and always performs its one fetch, and `resolve_asset_URL_extension`
has no guard either yet performs no fetch (a pure delegation to the
URL-extension helper). -/
theorem C2_disabled_amended (net : Net) (st : ScraperState) (status_dic : StatusDic)
    (search_term : String) (platform : AKLPlatform) (sel : AssetDict)
    (asset_info_id : String) (image_url : String)
    (h : st.scraper_disabled = true) :
    get_candidates net st status_dic search_term platform = (none, status_dic, 0) ∧
    get_metadata net st = (_new_gamedata_dic, st, 0) ∧
    get_assets net st status_dic asset_info_id = (some [], st, 0) ∧
    (resolve_asset_URL net st sel).2 = 1 ∧
    resolve_asset_URL_extension st sel image_url = (io_get_URL_extension image_url, 0) := by
  refine ⟨?_, ?_, ?_, rfl, rfl⟩ <;> simp [get_candidates, get_metadata, get_assets, h]

/-- Witness for `C2_disabled_amended` at the concrete disabled state. -/
theorem C2_disabled_amended_witness :
    get_candidates netEmpty stDisabled { } "Castlevania" ⟨"nes", none⟩
      = (none, { }, 0) ∧
    get_metadata netEmpty stDisabled = (_new_gamedata_dic, stDisabled, 0) ∧
    get_assets netEmpty stDisabled { } ASSET_SNAP_ID = (some [], stDisabled, 0) ∧
    (resolve_asset_URL netEmpty stDisabled selSnapAsset).2 = 1 ∧
    resolve_asset_URL_extension stDisabled selSnapAsset "https://x/y.png"
      = (io_get_URL_extension "https://x/y.png", 0) :=
  C2_disabled_amended netEmpty stDisabled { } "Castlevania" ⟨"nes", none⟩
    selSnapAsset ASSET_SNAP_ID "https://x/y.png" rfl

/-! ### Claim C3: non-200 search handling -/

/-- C3 counterexample: a search against a transport answering 500 leaves
the caller's status object untouched (still `status := true` — the failure
is only logged, never recorded) while returning the empty list; the claim's
required annotation of the shared status object does not happen. -/
theorem C3_non200_counterexample :
    (net500 (searchPost "castlevania" 41)).2 = 500 ∧
    (get_candidates net500 stEnabled { } "castlevania" ⟨"nes", none⟩).2.1 = { } ∧
    (get_candidates net500 stEnabled { } "castlevania" ⟨"nes", none⟩).2.1.status ≠ false ∧
    (get_candidates net500 stEnabled { } "castlevania" ⟨"nes", none⟩).1 = some [] := by
  refine ⟨rfl, rfl, ?_, rfl⟩
  decide

/-- C3 (amended): on a non-200 search response the failure is only logged:
the status object is returned unchanged, the body is parsed as on success
(an error body with no candidate-row markup yields the empty sequence after
the two transport calls), and no exception is raised — the operation is a
total function. -/
theorem C3_non200_amended (net : Net) (st : ScraperState) (status_dic : StatusDic)
    (search_term : String) (platform : AKLPlatform)
    (h : st.scraper_disabled = false)
    (h2 : (net (searchPost search_term (convert_AKL_platform_to_GameFaqs platform))).2 ≠ 200)
    (h3 : parseRows (pyClean (net (searchPost search_term
      (convert_AKL_platform_to_GameFaqs platform))).1).data = []) :
    get_candidates net st status_dic search_term platform = (some [], status_dic, 2) := by
  simp [get_candidates, _get_candidates_from_page, _get_candidates_rows, h, h3, pySortDesc]

/-- Witness for `C3_non200_amended` at the concrete failing transport. -/
theorem C3_non200_amended_witness :
    get_candidates net500 stEnabled { } "castlevania" ⟨"nes", none⟩ = (some [], { }, 2) :=
  C3_non200_amended net500 stEnabled { } "castlevania" ⟨"nes", none⟩ rfl (by decide) rfl

/-! ### Claim C7: result ordering -/

/-- C7: every (enabled) search returns its candidate list sorted by
non-increasing score, and for each score value the candidates of that score
appear exactly as in page order (the scored pre-sort list) — a stable
descending sort. -/
theorem C7_sorted_stable (net : Net) (st : ScraperState) (status_dic : StatusDic)
    (search_term : String) (platform : AKLPlatform)
    (h : st.scraper_disabled = false) :
    ∃ l, (get_candidates net st status_dic search_term platform).1 = some l ∧
      List.Sorted ordGE l ∧
      ∀ k, l.filter (fun c => c.order == k)
        = ((_get_candidates_rows net search_term
            (convert_AKL_platform_to_GameFaqs platform)).1).filter (fun c => c.order == k) := by
  refine ⟨pySortDesc (pySortDesc (_get_candidates_rows net search_term
    (convert_AKL_platform_to_GameFaqs platform)).1), ?_, sorted_pySortDesc _, ?_⟩
  · simp [get_candidates, _get_candidates_from_page, h]
  · intro k
    rw [filter_pySortDesc, filter_pySortDesc]

/-- Witness for `C7_sorted_stable` at a concrete enabled search. -/
theorem C7_sorted_stable_witness :
    ∃ l, (get_candidates netEmpty stEnabled { } "Castlevania" ⟨"nes", none⟩).1 = some l ∧
      List.Sorted ordGE l ∧
      ∀ k, l.filter (fun c => c.order == k)
        = ((_get_candidates_rows netEmpty "Castlevania"
            (convert_AKL_platform_to_GameFaqs ⟨"nes", none⟩)).1).filter (fun c => c.order == k) :=
  C7_sorted_stable netEmpty stEnabled { } "Castlevania" ⟨"nes", none⟩ rfl

/-! ### Claim C8: metadata idempotence under the cache -/

/-- C8: `get_metadata` is idempotent under the persistent cache: for one
candidate and cache key, a second sequential call returns the identical
record and performs zero network fetches — the first call stores the
completed record under the cache key before returning, and a hit
short-circuits to the stored record. -/
theorem C8_metadata_idempotent (net : Net) (st : ScraperState) :
    (get_metadata net (get_metadata net st).2.1).1 = (get_metadata net st).1 ∧
    (get_metadata net (get_metadata net st).2.1).2.2 = 0 := by
  by_cases hd : st.scraper_disabled = true
  · constructor <;> simp [get_metadata, hd]
  · rcases hc : List.lookup st.cache_key st.metadata_cache with _ | gd
    · constructor <;> simp [get_metadata, hd, hc, List.lookup]
    · constructor <;> simp [get_metadata, hd, hc]

/-! ### Claim C4: full-image resolution -/

set_option maxRecDepth 8000 in
/-- C4 (code bug): `resolve_asset_URL` classifies each image's alt text
with `_parse_asset_type` — the asset extractor's rule — but unlike
`_load_assets_from_page` (which guards `asset_infos is None`) it does not
guard the `None` classification, so a detail page whose image alt contains
"Video" makes `asset_id in None` raise a `TypeError` instead of the claimed
never-raising empty result; on a page with no matching image it does return
the empty pair. -/
theorem C4_resolve_video_bug :
    _parse_asset_type "Gameplay Video" = none ∧
    (resolve_asset_URL netVideoPage stEnabled selSnapAsset).1 = .error () ∧
    (resolve_asset_URL netEmpty stEnabled selSnapAsset).1 = .ok ("", "") := by
  refine ⟨rfl, ?_, ?_⟩ <;> exact rfl

end GameFAQsScraper
